import Mathlib

/-!
Shallow embedding of the mood-based music service (`src/app.py`).

The program serves songs for a requested mood.  At startup it scans seven
mood-named directories for `.mp3` files (`create_app`, lines 30-37).  The
request handler `get_song_for_mood` (lines 155-257) optionally tries the
Spotify API first, falls back to local files with a fixed fallback order,
avoids immediately repeating the last served file per mood, and tries
Spotify once more as a last resort before returning a 404.

Modelling conventions:
* Python dicts keyed by strings become association lists `List (String × α)`;
  `dict.get(k, d)` becomes `dictGet`.
* `random.choice(l)` becomes `choiceD l d k` where `k : Nat` is an oracle
  index supplied by the environment; `choiceD` picks `l[k % l.length]`.
* Each outbound network call is an oracle value of type `NetOutcome α`:
  either an exception raised during the call / response parsing
  (`NetOutcome.exn`), or a parsed response with a status code
  (`NetOutcome.resp`).  A malformed payload, which would make `.json()` or a
  key access raise inside the `try` block, is modelled by `NetOutcome.exn`.
* Python truthiness of an optional string (`if token:`, `t.get('preview_url')`)
  is `optTruthy`: `None` and the empty string are falsy.
* The mutable dict `last_served_for_mood` becomes a function
  `String → Option String` threaded through the handler; `d.get(k)` is
  application, `d[k] = v` is a pointwise update.
-/

/-- Truthiness of an optional string in Python: `None` and `''` are falsy. -/
def optTruthy : Option String → Bool
  | none => false
  | some s => !s.isEmpty

/-- Python `dict.get(k, d)` on an association list. -/
def dictGet {α : Type} (l : List (String × α)) (k : String) (d : α) : α :=
  (List.lookup k l).getD d

/-- Python `random.choice(l)` with an explicit oracle index `k`: picks
`l[k % l.length]` (and `d` on the empty list, which the program never hits). -/
def choiceD {α : Type} (l : List α) (d : α) (k : Nat) : α :=
  l.getD (k % l.length) d

/-- The seven fixed mood names, in the order of the `mood_to_files` dict
literal (`app.py` lines 20-28). -/
def moods : List String :=
  ["happy", "sad", "angry", "neutral", "surprised", "fearful", "disgusted"]

/-- The `fallback_order` list (`app.py` line 41). -/
def fallback_order : List String := ["neutral", "happy", "sad", "angry"]

/-- The check `filename.lower().endswith('.mp3')` (`app.py` line 35): the lowercased
filename has `".mp3"` as a suffix. -/
def endsWithMp3 (filename : String) : Bool :=
  ".mp3".data.isSuffixOf filename.toLower.data

/-- Catalog builder (`app.py` lines 30-37).  `dirListing mood` is `none` when
the directory `static/static_music/<mood>` does not exist, and `some files`
with its raw `os.listdir` result otherwise.  Each kept file is recorded as
`"<mood>/<filename>"`. -/
def build_mood_to_files (dirListing : String → Option (List String)) :
    List (String × List String) :=
  moods.map (fun mood =>
    (mood,
      match dirListing mood with
      | none => []
      | some files =>
        (files.filter endsWithMp3).map (fun filename => mood ++ "/" ++ filename)))

/-- The `mood_to_spotify_terms` table (`app.py` lines 52-60). -/
def mood_to_spotify_terms : List (String × String) :=
  [("happy", "upbeat happy energetic"),
   ("sad", "sad melancholic emotional"),
   ("angry", "intense aggressive powerful"),
   ("neutral", "calm peaceful ambient"),
   ("surprised", "energetic exciting dynamic"),
   ("fearful", "dark atmospheric tense"),
   ("disgusted", "intense dramatic")]

/-- Payload of a parsed token response: `response.json().get('access_token')`
may be absent. -/
structure TokenPayload where
  access_token : Option String
deriving DecidableEq

/-- Outcome of one outbound network call: an exception raised while making the
call or parsing its payload, or a parsed response with an HTTP status. -/
inductive NetOutcome (α : Type) where
  | exn (msg : String)
  | resp (status : Nat) (payload : α)
deriving DecidableEq

/-- One track item of a parsed Spotify search payload (the fields the code
reads: `name`, `artists[*].name`, `preview_url`, `external_urls.spotify`,
`album.images[*].url`). -/
structure Track where
  name : String
  artists : List String
  preview_url : Option String
  external_url_spotify : Option String
  album_images : List String
deriving DecidableEq

/-- The dict built by `search_spotify_track` (`app.py` lines 122-128). -/
structure TrackResult where
  name : String
  artist : String
  preview_url : Option String
  external_url : Option String
  album_image : Option String
deriving DecidableEq

/-- The dict `result = {...}` (`app.py` lines 122-128): `', '.join` of the artist
names, and the first album image when present. -/
def mkTrackResult (t : Track) : TrackResult :=
  { name := t.name
    artist := String.intercalate ", " t.artists
    preview_url := t.preview_url
    external_url := t.external_url_spotify
    album_image := t.album_images.head? }

def default_track : Track :=
  { name := "", artists := [], preview_url := none,
    external_url_spotify := none, album_images := [] }

/-- Function `get_spotify_token` (`app.py` lines 62-81): `None` unless Spotify is
configured, the call succeeds with status 200, and then whatever
`.get('access_token')` yields. -/
def get_spotify_token (USE_SPOTIFY : Bool) (net : NetOutcome TokenPayload) :
    Option String :=
  if !USE_SPOTIFY then none
  else
    match net with
    | .exn _ => none
    | .resp status payload =>
      if status == 200 then payload.access_token else none

/-- Function `search_spotify_track` (`app.py` lines 83-139).  `net` maps the query
string actually sent to the outcome of the `requests.get` call; `pick` is the
`random.choice` oracle.  Tracks with a truthy `preview_url` are preferred; a
random track of the chosen pool is turned into a `TrackResult`. -/
def search_spotify_track (mood : String) (token : Option String)
    (net : String → NetOutcome (List Track)) (pick : Nat) : Option TrackResult :=
  if !(optTruthy token) then none
  else
    let search_term := dictGet mood_to_spotify_terms mood "music"
    match net search_term with
    | .exn _ => none
    | .resp status tracks =>
      if status == 200 then
        if !tracks.isEmpty then
          let tracks_with_preview := tracks.filter (fun t => optTruthy t.preview_url)
          let tracks_to_use :=
            if !tracks_with_preview.isEmpty then tracks_with_preview else tracks
          some (mkTrackResult (choiceD tracks_to_use default_track pick))
        else none
      else none

/-- The JSON body of `/api/status` (`app.py` lines 145-153). -/
structure StatusResponse where
  spotify_configured : Bool
  spotify_client_id_set : Bool
  local_files_available : Bool
  mood_files : List (String × Nat)
deriving DecidableEq

/-- Handler `get_status` (`app.py` lines 145-153). -/
def get_status (USE_SPOTIFY SPOTIFY_CLIENT_ID_set : Bool)
    (mood_to_files : List (String × List String)) : StatusResponse :=
  { spotify_configured := USE_SPOTIFY
    spotify_client_id_set := SPOTIFY_CLIENT_ID_set
    local_files_available :=
      decide (0 < (mood_to_files.map (fun p => p.2.length)).sum)
    mood_files := mood_to_files.map (fun p => (p.1, p.2.length)) }

/-- The three shapes of JSON response `get_song_for_mood` can return. -/
inductive SongResponse where
  | spotifyTrack (mood : String) (t : TrackResult)
  | localFile (mood : String) (path : String) (file : String)
  | notFound (message : String)
deriving DecidableEq

/-- HTTP status of each response (`jsonify(...)` vs `jsonify(...), 404`). -/
def SongResponse.httpStatus : SongResponse → Nat
  | .notFound _ => 404
  | _ => 200

/-- The `'ok'` field of the JSON body. -/
def SongResponse.okField : SongResponse → Bool
  | .notFound _ => false
  | _ => true

/-- The `'message'` field of the JSON body, present only on the 404 body. -/
def SongResponse.messageField : SongResponse → Option String
  | .notFound m => some m
  | _ => none

/-- The 404 message (`app.py` lines 229-232). -/
def not_found_message (USE_SPOTIFY : Bool) : String :=
  "No music files found for this mood. " ++
  (if USE_SPOTIFY then "Spotify is configured but no preview available. " else "") ++
  "Add MP3s in /static/static_music/\x7bmood\x7d/ folders or configure Spotify API with preview URLs."

/-- The per-request environment: the startup catalog, the Spotify
configuration flag, and the oracles for the (at most one) token call, the
(at most one) search call, and the two `random.choice` sites. -/
structure ReqEnv where
  mood_to_files : List (String × List String)
  USE_SPOTIFY : Bool
  tokenNet : NetOutcome TokenPayload
  searchNet : String → NetOutcome (List Track)
  pickTrack : Nat
  pickLocal : Nat

/-- Everything one request produces: the response, the `last_served_for_mood`
dict after the request, the catalog after the request (never written, carried
out to state the frame property), and how many outbound network calls of each
kind were attempted. -/
structure ReqResult where
  response : SongResponse
  last_served : String → Option String
  mood_to_files : List (String × List String)
  tokenCalls : Nat
  searchCalls : Nat

/-- The spotify-first phase (`app.py` lines 162-195): the track to return (if
any, only ever one with a truthy preview), plus the numbers of token and
search network calls attempted.  Entered with the already lowercased mood. -/
def spotify_first (env : ReqEnv) (mood : String) (use_spotify : Bool) :
    Option TrackResult × Nat × Nat :=
  if use_spotify then
    if !env.USE_SPOTIFY then (none, 0, 0)
    else
      let token := get_spotify_token env.USE_SPOTIFY env.tokenNet
      if optTruthy token then
        match search_spotify_track mood token env.searchNet env.pickTrack with
        | some t =>
          if optTruthy t.preview_url then (some t, 1, 1) else (none, 1, 1)
        | none => (none, 1, 1)
      else (none, 1, 0)
  else (none, 0, 0)

/-- Local candidate resolution (`app.py` lines 200-207): the requested mood's
files, or on emptiness the files of the first mood of `fallback_order` with a
non-empty (truthy) list. -/
def resolve_files (mood_to_files : List (String × List String)) (mood : String) :
    List String :=
  let files := dictGet mood_to_files mood []
  if files.isEmpty then
    match fallback_order.find? (fun fb => !(dictGet mood_to_files fb []).isEmpty) with
    | some fb => dictGet mood_to_files fb []
    | none => []
  else files

/-- The anti-repeat selection (`app.py` lines 238-245), given the resolved
non-empty candidate list and `last_served_for_mood.get(mood)`. -/
def local_select (files : List String) (previous : Option String) (pick : Nat) :
    String :=
  if files.length == 1 then files.getD 0 ""
  else
    let candidates := files.filter (fun f => previous != some f)
    if !candidates.isEmpty then choiceD candidates "" pick
    else choiceD files "" pick

/-- Handler `get_song_for_mood` (`app.py` lines 155-257).  `st` is the
`last_served_for_mood` dict before the request, `mood0` the raw URL argument,
`spotifyParam` the raw `spotify` query parameter (absent = `none`). -/
def get_song_for_mood (env : ReqEnv) (st : String → Option String)
    (mood0 : String) (spotifyParam : Option String) : ReqResult :=
  let mood := mood0.toLower
  let use_spotify := (spotifyParam.getD "false").toLower == "true"
  match spotify_first env mood use_spotify with
  | (some t, tc, sc) =>
    { response := .spotifyTrack mood t, last_served := st,
      mood_to_files := env.mood_to_files, tokenCalls := tc, searchCalls := sc }
  | (none, tc, sc) =>
    let files := resolve_files env.mood_to_files mood
    if files.isEmpty then
      if env.USE_SPOTIFY && !use_spotify then
        let token := get_spotify_token env.USE_SPOTIFY env.tokenNet
        if optTruthy token then
          match search_spotify_track mood token env.searchNet env.pickTrack with
          | some t2 =>
            if optTruthy t2.preview_url then
              { response := .spotifyTrack mood t2, last_served := st,
                mood_to_files := env.mood_to_files,
                tokenCalls := tc + 1, searchCalls := sc + 1 }
            else
              { response := .notFound (not_found_message env.USE_SPOTIFY),
                last_served := st, mood_to_files := env.mood_to_files,
                tokenCalls := tc + 1, searchCalls := sc + 1 }
          | none =>
            { response := .notFound (not_found_message env.USE_SPOTIFY),
              last_served := st, mood_to_files := env.mood_to_files,
              tokenCalls := tc + 1, searchCalls := sc + 1 }
        else
          { response := .notFound (not_found_message env.USE_SPOTIFY),
            last_served := st, mood_to_files := env.mood_to_files,
            tokenCalls := tc + 1, searchCalls := sc }
      else
        { response := .notFound (not_found_message env.USE_SPOTIFY),
          last_served := st, mood_to_files := env.mood_to_files,
          tokenCalls := tc, searchCalls := sc }
    else
      let chosen := local_select files (st mood) env.pickLocal
      { response := .localFile mood ("/static/static_music/" ++ chosen) chosen,
        last_served := fun m => if m == mood then some chosen else st m,
        mood_to_files := env.mood_to_files, tokenCalls := tc, searchCalls := sc }

/-! ### Helper lemmas -/

theorem charToLower_idem (c : Char) : c.toLower.toLower = c.toLower := by
  simp only [Char.toLower]
  by_cases h : c.toNat ≥ 65 ∧ c.toNat ≤ 90
  · rw [if_pos h]
    have hv : Nat.isValidChar (c.toNat + 32) := Or.inl (by omega)
    have ht : (Char.ofNat (c.toNat + 32)).toNat = c.toNat + 32 := by
      rw [Char.ofNat, dif_pos hv]; rfl
    rw [if_neg]
    omega
  · rw [if_neg h, if_neg h]

theorem strToLower_idem (s : String) : s.toLower.toLower = s.toLower := by
  simp only [String.toLower, String.map_eq, List.map_map]
  congr 1
  exact List.map_congr_left (fun c _ => charToLower_idem c)

theorem choiceD_mem {α : Type} {l : List α} (d : α) (k : Nat) (h : l ≠ []) :
    choiceD l d k ∈ l := by
  unfold choiceD
  have hlen : 0 < l.length := List.length_pos.mpr h
  have hk : k % l.length < l.length := Nat.mod_lt _ hlen
  rw [List.getD_eq_getElem l d hk]
  exact List.getElem_mem hk

theorem choiceD_at {α : Type} (l : List α) (d : α) (i : Nat) (h : i < l.length) :
    choiceD l d i = l.get ⟨i, h⟩ := by
  unfold choiceD
  rw [Nat.mod_eq_of_lt h, List.getD_eq_getElem l d h]
  simp

theorem local_select_mem (files : List String) (previous : Option String)
    (pick : Nat) (h : files ≠ []) : local_select files previous pick ∈ files := by
  unfold local_select
  by_cases h1 : files.length == 1
  · rw [if_pos h1]
    have hlen : 0 < files.length := List.length_pos.mpr h
    rw [List.getD_eq_getElem files "" hlen]
    exact List.getElem_mem hlen
  · rw [if_neg h1]
    by_cases h2 : !(files.filter (fun f => previous != some f)).isEmpty
    · simp only [h2, if_true]
      have := choiceD_mem "" pick (l := files.filter (fun f => previous != some f))
        (by simpa using h2)
      exact List.mem_of_mem_filter this
    · simp only [h2, if_false]
      exact choiceD_mem "" pick h

theorem local_select_ne_prev (files : List String) (p : String) (pick : Nat)
    (h2 : ∃ a ∈ files, ∃ b ∈ files, a ≠ b) :
    local_select files (some p) pick ≠ p := by
  obtain ⟨a, ha, b, hb, hab⟩ := h2
  have hex : ∃ x ∈ files, x ≠ p := by
    by_cases hap : a = p
    · exact ⟨b, hb, by rw [← hap]; exact fun e => hab e.symm⟩
    · exact ⟨a, ha, hap⟩
  obtain ⟨x, hx, hxp⟩ := hex
  have hlen : files.length ≠ 1 := by
    intro hl
    rw [List.length_eq_one] at hl
    obtain ⟨c, rfl⟩ := hl
    simp at ha hb
    subst ha hb; exact hab rfl
  unfold local_select
  rw [if_neg (by simpa using hlen)]
  have hcand : (files.filter (fun f => (some p : Option String) != some f)) ≠ [] := by
    intro hemp
    have : x ∈ files.filter (fun f => (some p : Option String) != some f) := by
      rw [List.mem_filter]
      exact ⟨hx, by simp [bne]; exact fun e => hxp e.symm⟩
    rw [hemp] at this; simp at this
  rw [if_pos (by simpa using List.isEmpty_eq_false.mpr hcand)]
  have hmem := choiceD_mem "" pick hcand
  rw [List.mem_filter] at hmem
  have := hmem.2
  simp [bne] at this
  exact fun e => this e.symm

theorem local_select_single (f : String) (previous : Option String) (pick : Nat) :
    local_select [f] previous pick = f := rfl

/-- Characterization of `List.find?`: it returns the first element satisfying
the predicate — there is
an index where the predicate holds, and it fails at every earlier index. -/
theorem find?_first {α : Type} (p : α → Bool) (l : List α) (x : α)
    (h : l.find? p = some x) :
    ∃ i : Fin l.length,
      l.get i = x ∧ p x = true ∧ ∀ j : Fin l.length, j.1 < i.1 → p (l.get j) = false := by
  induction l with
  | nil => simp at h
  | cons a as ih =>
    rw [List.find?] at h
    by_cases hpa : p a
    · rw [hpa] at h
      simp only [Option.some.injEq] at h
      subst h
      exact ⟨⟨0, by simp⟩, rfl, hpa, fun j hj => absurd hj (by simp)⟩
    · rw [Bool.of_not_eq_true hpa] at h
      obtain ⟨i, hget, hpx, hmin⟩ := ih h
      refine ⟨⟨i.1 + 1, by simp⟩, by simpa using hget, hpx, ?_⟩
      rintro ⟨j, hjlen⟩ hj
      cases j with
      | zero => simpa using Bool.of_not_eq_true hpa
      | succ j' =>
        have hj' : j' < as.length := by simpa using hjlen
        have := hmin ⟨j', hj'⟩ (by simpa using hj)
        simpa using this

theorem toLower_lit_false : "false".toLower = "false" := by
  simp only [String.toLower, String.map_eq]
  decide

theorem toLower_lit_true : "true".toLower = "true" := by
  simp only [String.toLower, String.map_eq]
  decide

theorem toLower_lit_happy : "happy".toLower = "happy" := by
  simp only [String.toLower, String.map_eq]
  decide

theorem toLower_lit_HAPPY : "Happy".toLower = "happy" := by
  simp only [String.toLower, String.map_eq]
  decide

theorem toLower_lit_sad : "sad".toLower = "sad" := by
  simp only [String.toLower, String.map_eq]
  decide

theorem spotify_first_param_false (env : ReqEnv) (mood : String) :
    spotify_first env mood false = (none, 0, 0) := rfl

theorem spotify_first_not_configured (env : ReqEnv) (mood : String)
    (use_spotify : Bool) (h : env.USE_SPOTIFY = false) :
    spotify_first env mood use_spotify = (none, 0, 0) := by
  unfold spotify_first
  cases use_spotify <;> simp [h]

/-- The spotify-first phase never attempts a network call unless the provider
is configured, and any track it returns has a truthy preview. -/
theorem spotify_first_track_preview (env : ReqEnv) (mood : String)
    (use_spotify : Bool) (t : TrackResult) (tc sc : Nat)
    (h : spotify_first env mood use_spotify = (some t, tc, sc)) :
    optTruthy t.preview_url = true := by
  unfold spotify_first at h
  by_cases hu : use_spotify
  · rw [if_pos hu] at h
    by_cases hc : !env.USE_SPOTIFY
    · rw [if_pos hc] at h; simp at h
    · rw [if_neg hc] at h
      by_cases ht : optTruthy (get_spotify_token env.USE_SPOTIFY env.tokenNet)
      · rw [if_pos ht] at h
        rcases hs : search_spotify_track mood
            (get_spotify_token env.USE_SPOTIFY env.tokenNet) env.searchNet
            env.pickTrack with _ | t'
        · rw [hs] at h; simp at h
        · rw [hs] at h
          dsimp only at h
          by_cases hp : optTruthy t'.preview_url
          · rw [if_pos hp] at h
            simp only [Prod.mk.injEq, Option.some.injEq] at h
            rw [← h.1]; exact hp
          · rw [if_neg hp] at h; simp at h
      · rw [if_neg ht] at h; simp at h
  · rw [if_neg hu] at h; simp at h

/-- Inversion: when a request answers with a local file, the served mood is
the lowercased URL argument, the resolved candidate list is non-empty, the
file is the anti-repeat selection from it, and the path is the static route
of the file. -/
theorem get_song_local_inv (env : ReqEnv) (st : String → Option String)
    (mood0 : String) (sp : Option String) (m p f : String)
    (h : (get_song_for_mood env st mood0 sp).response = .localFile m p f) :
    m = mood0.toLower ∧
    resolve_files env.mood_to_files mood0.toLower ≠ [] ∧
    f = local_select (resolve_files env.mood_to_files mood0.toLower)
          (st mood0.toLower) env.pickLocal ∧
    p = "/static/static_music/" ++ f := by
  simp only [get_song_for_mood] at h
  rcases hsf : spotify_first env mood0.toLower
      ((sp.getD "false").toLower == "true") with ⟨o, tc, sc⟩
  rw [hsf] at h
  rcases o with _ | t
  · dsimp only at h
    by_cases hfe : (resolve_files env.mood_to_files mood0.toLower).isEmpty
    · rw [if_pos hfe] at h
      by_cases hlr : env.USE_SPOTIFY && !((sp.getD "false").toLower == "true")
      · rw [if_pos hlr] at h
        by_cases ht : optTruthy (get_spotify_token env.USE_SPOTIFY env.tokenNet)
        · rw [if_pos ht] at h
          rcases hs : search_spotify_track mood0.toLower
              (get_spotify_token env.USE_SPOTIFY env.tokenNet) env.searchNet
              env.pickTrack with _ | t2
          · rw [hs] at h; simp at h
          · rw [hs] at h
            dsimp only at h
            by_cases hp : optTruthy t2.preview_url
            · rw [if_pos hp] at h; simp at h
            · rw [if_neg hp] at h; simp at h
        · rw [if_neg ht] at h; simp at h
      · rw [if_neg hlr] at h; simp at h
    · rw [if_neg hfe] at h
      simp only [SongResponse.localFile.injEq] at h
      obtain ⟨hm, hp, hf⟩ := h
      have hne : resolve_files env.mood_to_files mood0.toLower ≠ [] := by
        intro he; rw [he] at hfe; simp at hfe
      exact ⟨hm.symm, hne, hf.symm, by rw [← hp, hf]⟩
  · dsimp only at h; simp at h

/-- The `last_served_for_mood` dict after a request: unchanged except that on
a local answer the lowercased requested mood maps to the served file. -/
theorem get_song_last_served (env : ReqEnv) (st : String → Option String)
    (mood0 : String) (sp : Option String) :
    ((∀ m' p f, (get_song_for_mood env st mood0 sp).response ≠ .localFile m' p f) →
       ∀ m', (get_song_for_mood env st mood0 sp).last_served m' = st m') ∧
    (∀ m' p f, (get_song_for_mood env st mood0 sp).response = .localFile m' p f →
       ∀ m'', (get_song_for_mood env st mood0 sp).last_served m''
         = if m'' = mood0.toLower then some f else st m'') := by
  simp only [get_song_for_mood]
  rcases hsf : spotify_first env mood0.toLower
      ((sp.getD "false").toLower == "true") with ⟨o, tc, sc⟩
  rcases o with _ | t
  · dsimp only
    by_cases hfe : (resolve_files env.mood_to_files mood0.toLower).isEmpty
    · rw [if_pos hfe]
      by_cases hlr : env.USE_SPOTIFY && !((sp.getD "false").toLower == "true")
      · rw [if_pos hlr]
        by_cases ht : optTruthy (get_spotify_token env.USE_SPOTIFY env.tokenNet)
        · rw [if_pos ht]
          rcases hs : search_spotify_track mood0.toLower
              (get_spotify_token env.USE_SPOTIFY env.tokenNet) env.searchNet
              env.pickTrack with _ | t2
          · exact ⟨fun _ _ => rfl, fun m' p f hresp => by simp at hresp⟩
          · dsimp only
            by_cases hp : optTruthy t2.preview_url
            · rw [if_pos hp]
              exact ⟨fun _ _ => rfl, fun m' p f hresp => by simp at hresp⟩
            · rw [if_neg hp]
              exact ⟨fun _ _ => rfl, fun m' p f hresp => by simp at hresp⟩
        · rw [if_neg ht]
          exact ⟨fun _ _ => rfl, fun m' p f hresp => by simp at hresp⟩
      · rw [if_neg hlr]
        exact ⟨fun _ _ => rfl, fun m' p f hresp => by simp at hresp⟩
    · rw [if_neg hfe]
      constructor
      · intro hnl
        exact absurd rfl (hnl _ _ _)
      · intro m' p f hresp m''
        simp only [SongResponse.localFile.injEq] at hresp
        obtain ⟨hm, hp, hf⟩ := hresp
        by_cases hm'' : m'' = mood0.toLower
        · simp [hm'', hf]
        · simp [hm'', beq_iff_eq]
  · dsimp only
    exact ⟨fun _ _ => rfl, fun m' p f hresp => by simp at hresp⟩

/-- A network call outcome the code treats as a failure: an exception during
the call or payload parsing, or a non-200 status. -/
def netFailed {α : Type} : NetOutcome α → Bool
  | .exn _ => true
  | .resp status _ => status != 200

/-! ### Claims -/

/-- C10: the handler `get_song_for_mood` lowercases its mood argument before any lookup,
selection, or last-served update, so a request for mood `m` behaves
identically (same response, same state update, same network calls) to a
request for `lowercase(m)`. -/
theorem C10_mood_lowercased (env : ReqEnv) (st : String → Option String)
    (mood0 : String) (sp : Option String) :
    get_song_for_mood env st mood0 sp = get_song_for_mood env st mood0.toLower sp := by
  unfold get_song_for_mood
  rw [strToLower_idem]

/-- C8: both external-call wrappers turn every failing outcome — a raised
exception (network error or malformed payload) as well as a non-200
response — into the `None` sentinel, and a 200 token response without an
`access_token` also yields `None`; no failure escapes to the HTTP layer. -/
theorem C8_failures_become_none :
    (∀ (USE_SPOTIFY : Bool) (net : NetOutcome TokenPayload),
       netFailed net = true → get_spotify_token USE_SPOTIFY net = none) ∧
    (∀ USE_SPOTIFY : Bool,
       get_spotify_token USE_SPOTIFY (NetOutcome.resp 200 ⟨none⟩) = none) ∧
    (∀ (mood : String) (token : Option String)
       (net : String → NetOutcome (List Track)) (pick : Nat),
       netFailed (net (dictGet mood_to_spotify_terms mood "music")) = true →
       search_spotify_track mood token net pick = none) := by
  refine ⟨?_, ?_, ?_⟩
  · intro USE_SPOTIFY net hfail
    unfold get_spotify_token
    cases USE_SPOTIFY
    · rfl
    · rcases net with msg | ⟨status, payload⟩
      · rfl
      · simp only [netFailed, ne_eq, bne_iff_ne] at hfail
        simp [hfail]
  · intro USE_SPOTIFY
    cases USE_SPOTIFY <;> rfl
  · intro mood token net pick hfail
    unfold search_spotify_track
    by_cases ht : optTruthy token
    · rw [if_neg (by simp [ht])]
      dsimp only
      rcases hn : net (dictGet mood_to_spotify_terms mood "music") with msg | ⟨status, tracks⟩
      · rfl
      · rw [hn] at hfail
        simp only [netFailed, bne_iff_ne] at hfail
        dsimp only
        rw [if_neg (by simpa using hfail)]
    · rw [if_pos (by simp [ht])]

/-- Witness for C8 at concrete failing outcomes: a raised exception on the
token call and a 500 on the search call both yield `None`. -/
theorem C8_witness :
    get_spotify_token true (NetOutcome.exn "connection error") = none ∧
    get_spotify_token true (NetOutcome.resp 200 ⟨none⟩) = none ∧
    search_spotify_track "happy" (some "tok")
      (fun _ => NetOutcome.resp 500 []) 0 = none :=
  ⟨C8_failures_become_none.1 true (NetOutcome.exn "connection error") rfl,
   C8_failures_become_none.2.1 true,
   C8_failures_become_none.2.2 "happy" (some "tok")
     (fun _ => NetOutcome.resp 500 []) 0 (by decide)⟩

/-- C3: a request with `spotify=true` while the provider credentials are not
configured attempts no network call at all — neither token acquisition nor
track search, in any branch — and answers with a local file or a 404. -/
theorem C3_flag_without_credentials (env : ReqEnv) (st : String → Option String)
    (mood0 : String) (sp : Option String)
    (hcfg : env.USE_SPOTIFY = false)
    (hsp : (sp.getD "false").toLower = "true") :
    (get_song_for_mood env st mood0 sp).tokenCalls = 0 ∧
    (get_song_for_mood env st mood0 sp).searchCalls = 0 ∧
    ((∃ m p f, (get_song_for_mood env st mood0 sp).response
        = SongResponse.localFile m p f) ∨
     (∃ msg, (get_song_for_mood env st mood0 sp).response
        = SongResponse.notFound msg)) := by
  have hsf := spotify_first_not_configured env mood0.toLower
      ((sp.getD "false").toLower == "true") hcfg
  simp only [get_song_for_mood, hsf]
  by_cases hfe : (resolve_files env.mood_to_files mood0.toLower).isEmpty
  · simp [hfe, hcfg]
  · simp [hfe, hcfg]

def st0 : String → Option String := fun _ => none

def envC3 : ReqEnv :=
  { mood_to_files := [("happy", ["happy/a.mp3"])], USE_SPOTIFY := false,
    tokenNet := NetOutcome.exn "unused", searchNet := fun _ => NetOutcome.exn "unused",
    pickTrack := 0, pickLocal := 0 }

/-- Witness for C3: a concrete `spotify=true` request against an unconfigured
provider performs zero token and zero search calls. -/
theorem C3_witness :
    (get_song_for_mood envC3 st0 "happy" (some "true")).tokenCalls = 0 ∧
    (get_song_for_mood envC3 st0 "happy" (some "true")).searchCalls = 0 :=
  ⟨(C3_flag_without_credentials envC3 st0 "happy" (some "true") rfl
      toLower_lit_true).1,
   (C3_flag_without_credentials envC3 st0 "happy" (some "true") rfl
      toLower_lit_true).2.1⟩

/-- Number of `.mp3` files the startup scan counts for one mood: zero when
the mood directory is missing, else the number of directory entries whose
lowercased name ends in `.mp3`. -/
def countMp3 (dirListing : String → Option (List String)) (mood : String) : Nat :=
  (((dirListing mood).getD []).filter endsWithMp3).length

theorem listing_length (dirListing : String → Option (List String)) (mood : String) :
    (match dirListing mood with
     | none => ([] : List String)
     | some files =>
       (files.filter endsWithMp3).map (fun filename => mood ++ "/" ++ filename)).length
    = countMp3 dirListing mood := by
  cases h : dirListing mood <;> simp [countMp3, h]

theorem lookup_map_self {β : Type} (g : String → β) (l : List String) (mood : String)
    (hm : mood ∈ l) :
    List.lookup mood (l.map (fun m => (m, g m))) = some (g mood) := by
  induction l with
  | nil => simp at hm
  | cons a as ih =>
    simp only [List.map_cons, List.lookup]
    rcases hma : mood == a with _ | _
    · have : mood ∈ as := by
        rcases List.mem_cons.mp hm with h | h
        · rw [h] at hma; simp at hma
        · exact h
      exact ih this
    · have : mood = a := by simpa [beq_iff_eq] using hma
      rw [this]

theorem sum_pos_iff_exists_ne_zero (l : List Nat) : 0 < l.sum ↔ ∃ x ∈ l, x ≠ 0 := by
  rw [Nat.pos_iff_ne_zero, Ne, List.sum_eq_zero_iff]
  push_neg
  rfl

theorem dictGet_build (dirListing : String → Option (List String)) (mood : String)
    (hm : mood ∈ moods) :
    dictGet (build_mood_to_files dirListing) mood []
      = (((dirListing mood).getD []).filter endsWithMp3).map
          (fun filename => mood ++ "/" ++ filename) := by
  unfold dictGet build_mood_to_files
  rw [lookup_map_self _ _ _ hm]
  cases h : dirListing mood <;> simp [h]

/-- C7: the endpoint `/api/status` reports, for each of the seven moods, exactly the
number of files discovered at startup — a file is discovered iff the mood
directory exists and its name ends in `.mp3` case-insensitively, and it is
stored as `"<mood>/<filename>"` — and `local_files_available` is true iff
some mood has a non-zero count. -/
theorem C7_status_counts (dirListing : String → Option (List String))
    (usp cid : Bool) :
    (∀ mood ∈ moods,
       List.lookup mood
           (get_status usp cid (build_mood_to_files dirListing)).mood_files
         = some (countMp3 dirListing mood) ∧
       dictGet (build_mood_to_files dirListing) mood []
         = (((dirListing mood).getD []).filter endsWithMp3).map
             (fun filename => mood ++ "/" ++ filename)) ∧
    ((get_status usp cid (build_mood_to_files dirListing)).local_files_available
        = true
      ↔ ∃ mood ∈ moods, countMp3 dirListing mood ≠ 0) := by
  have hmap : (get_status usp cid (build_mood_to_files dirListing)).mood_files
      = moods.map (fun m => (m, countMp3 dirListing m)) := by
    simp only [get_status, build_mood_to_files, List.map_map]
    apply List.map_congr_left
    intro m _
    simp only [Function.comp_apply]
    rw [← listing_length dirListing m]
  constructor
  · intro mood hm
    refine ⟨?_, dictGet_build dirListing mood hm⟩
    rw [hmap, lookup_map_self _ _ _ hm]
  · simp only [get_status, build_mood_to_files, List.map_map,
      decide_eq_true_eq]
    have hmap2 : (moods.map
        ((fun (p : String × List String) => p.2.length) ∘
          (fun mood => (mood,
            match dirListing mood with
            | none => []
            | some files =>
              (files.filter endsWithMp3).map
                (fun filename => mood ++ "/" ++ filename)))))
        = moods.map (fun m => countMp3 dirListing m) := by
      apply List.map_congr_left
      intro m _
      simp only [Function.comp_apply]
      rw [← listing_length dirListing m]
    rw [hmap2, sum_pos_iff_exists_ne_zero]
    constructor
    · rintro ⟨x, hx, hxne⟩
      obtain ⟨m, hmm, rfl⟩ := List.mem_map.mp hx
      exact ⟨m, hmm, hxne⟩
    · rintro ⟨m, hmm, hmne⟩
      exact ⟨countMp3 dirListing m, List.mem_map.mpr ⟨m, hmm, rfl⟩, hmne⟩

/-- Example directory state for the C7 witness: only the `happy` directory
exists, holding two `.mp3` files (one upper-cased) and one `.txt` file. -/
def dEx : String → Option (List String) :=
  fun mood => if mood = "happy" then some ["a.mp3", "b.txt", "C.MP3"] else none

theorem endsWithMp3_a : endsWithMp3 "a.mp3" = true := by
  simp only [endsWithMp3, String.toLower, String.map_eq]; decide

theorem endsWithMp3_b : endsWithMp3 "b.txt" = false := by
  simp only [endsWithMp3, String.toLower, String.map_eq]; decide

theorem endsWithMp3_c : endsWithMp3 "C.MP3" = true := by
  simp only [endsWithMp3, String.toLower, String.map_eq]; decide

/-- Witness for C7 at a concrete directory state: the reported `happy` count
is the number of discovered `.mp3` files, namely 2. -/
theorem C7_witness :
    List.lookup "happy"
        (get_status true true (build_mood_to_files dEx)).mood_files
      = some (countMp3 dEx "happy") ∧
    countMp3 dEx "happy" = 2 := by
  refine ⟨((C7_status_counts dEx true true).1 "happy" (by decide)).1, ?_⟩
  simp [countMp3, dEx, List.filter_cons, endsWithMp3_a, endsWithMp3_b, endsWithMp3_c]

/-- Evaluation of the track search on a successful 200 response with a
non-empty track list: the preferred pool is the with-preview subset when
non-empty, else the full list, and the oracle picks inside the pool. -/
theorem search_eval (mood : String) (token : Option String)
    (net : String → NetOutcome (List Track)) (pick : Nat) (tracks : List Track)
    (htok : optTruthy token = true)
    (hnet : net (dictGet mood_to_spotify_terms mood "music")
      = NetOutcome.resp 200 tracks)
    (hne : tracks ≠ []) :
    search_spotify_track mood token net pick
      = some (mkTrackResult (choiceD
          (if !(tracks.filter (fun t => optTruthy t.preview_url)).isEmpty
           then tracks.filter (fun t => optTruthy t.preview_url) else tracks)
          default_track pick)) := by
  unfold search_spotify_track
  rw [if_neg (by simp [htok])]
  dsimp only
  rw [hnet]
  dsimp only
  rw [if_pos (by decide)]
  rw [if_pos (by simpa using List.isEmpty_eq_false.mpr hne)]

/-- C4: on a non-empty 200 search result containing tracks both with and
without a preview reference, the selected track always lies in the
with-preview subset, every element of that subset is reachable by some
oracle value, and only when no track has a preview does the selection range
over the full result list. -/
theorem C4_preview_subset (mood : String) (token : Option String)
    (net : String → NetOutcome (List Track)) (tracks : List Track) (pick : Nat)
    (htok : optTruthy token = true)
    (hnet : net (dictGet mood_to_spotify_terms mood "music")
      = NetOutcome.resp 200 tracks) :
    (tracks.filter (fun t => optTruthy t.preview_url) ≠ [] →
       ∃ t ∈ tracks.filter (fun t => optTruthy t.preview_url),
         search_spotify_track mood token net pick = some (mkTrackResult t)) ∧
    (∀ i : Fin (tracks.filter (fun t => optTruthy t.preview_url)).length,
       search_spotify_track mood token net i.1
         = some (mkTrackResult
             ((tracks.filter (fun t => optTruthy t.preview_url)).get i))) ∧
    ((tracks.filter (fun t => optTruthy t.preview_url) = [] ∧ tracks ≠ []) →
       ∃ t ∈ tracks,
         search_spotify_track mood token net pick = some (mkTrackResult t)) := by
  refine ⟨?_, ?_, ?_⟩
  · intro hfil
    have htr : tracks ≠ [] := by
      rintro rfl; simp at hfil
    rw [search_eval mood token net pick tracks htok hnet htr]
    rw [if_pos (by simpa using List.isEmpty_eq_false.mpr hfil)]
    exact ⟨_, choiceD_mem default_track pick hfil, rfl⟩
  · intro i
    have hfil : tracks.filter (fun t => optTruthy t.preview_url) ≠ [] := by
      intro he
      rw [he] at i
      exact absurd i.2 (by simp)
    have htr : tracks ≠ [] := by rintro rfl; simp at hfil
    rw [search_eval mood token net i.1 tracks htok hnet htr]
    rw [if_pos (by simpa using List.isEmpty_eq_false.mpr hfil)]
    rw [choiceD_at _ default_track i.1 i.2]
  · rintro ⟨hfil, htr⟩
    rw [search_eval mood token net pick tracks htok hnet htr]
    rw [if_neg (by simp [hfil])]
    exact ⟨_, choiceD_mem default_track pick htr, rfl⟩

/-- Example search-result tracks for the C4 witness: one with a preview
reference and one without. -/
def trackP : Track :=
  { name := "Uplift", artists := ["Ann"], preview_url := some "https://p.example/a",
    external_url_spotify := some "https://open.example/a",
    album_images := ["https://img.example/a"] }

def trackN : Track :=
  { name := "Quiet", artists := ["Bob"], preview_url := none,
    external_url_spotify := none, album_images := [] }

/-- Witness for C4: on a mixed result list the selection comes from the
with-preview subset. -/
theorem C4_witness :
    ∃ t ∈ [trackP, trackN].filter (fun t => optTruthy t.preview_url),
      search_spotify_track "happy" (some "tok")
          (fun _ => NetOutcome.resp 200 [trackP, trackN]) 5
        = some (mkTrackResult t) :=
  (C4_preview_subset "happy" (some "tok")
      (fun _ => NetOutcome.resp 200 [trackP, trackN])
      [trackP, trackN] 5 (by decide) rfl).1 (by decide)

/-- C6: when the resolved candidate list for the (lowercased) requested mood
is a single file, every request whose answer is local serves exactly that
file, and every request that does not ask for spotify serves it
unconditionally — regardless of the last-served state. -/
theorem C6_single_file (env : ReqEnv) (st : String → Option String)
    (mood0 : String) (sp : Option String) (f : String)
    (hone : resolve_files env.mood_to_files mood0.toLower = [f]) :
    (∀ m p fl, (get_song_for_mood env st mood0 sp).response
        = SongResponse.localFile m p fl → fl = f) ∧
    ((sp.getD "false").toLower ≠ "true" →
      (get_song_for_mood env st mood0 sp).response
        = SongResponse.localFile mood0.toLower ("/static/static_music/" ++ f) f) := by
  constructor
  · intro m p fl hresp
    obtain ⟨-, -, hf, -⟩ := get_song_local_inv env st mood0 sp m p fl hresp
    rw [hf, hone, local_select_single]
  · intro hns
    have husp : ((sp.getD "false").toLower == "true") = false := by
      simpa using hns
    simp only [get_song_for_mood, husp, spotify_first_param_false]
    rw [hone]
    rw [if_neg (by simp)]
    rw [local_select_single]

def envC6 : ReqEnv :=
  { mood_to_files := [("happy", ["happy/only.mp3"])], USE_SPOTIFY := false,
    tokenNet := NetOutcome.exn "unused", searchNet := fun _ => NetOutcome.exn "unused",
    pickTrack := 0, pickLocal := 7 }

/-- Witness for C6: with one `happy` file and no spotify request, the
request serves exactly that file. -/
theorem C6_witness :
    (get_song_for_mood envC6 st0 "happy" none).response
      = SongResponse.localFile "happy".toLower
          ("/static/static_music/" ++ "happy/only.mp3") "happy/only.mp3" :=
  (C6_single_file envC6 st0 "happy" none "happy/only.mp3"
      (by rw [toLower_lit_happy]; decide)).2
    (by rw [Option.getD, toLower_lit_false]; decide)

/-- The catalog is never written by a request. -/
theorem get_song_catalog (env : ReqEnv) (st : String → Option String)
    (mood0 : String) (sp : Option String) :
    (get_song_for_mood env st mood0 sp).mood_to_files = env.mood_to_files := by
  simp only [get_song_for_mood]
  rcases spotify_first env mood0.toLower
      ((sp.getD "false").toLower == "true") with ⟨o, tc, sc⟩
  rcases o with _ | t
  · dsimp only
    repeat' split
    all_goals rfl
  · rfl

/-- C9: a request leaves the catalog untouched; the only `last_served`
entry that may change is the one keyed by the lowercased requested mood,
and it is set (to the served file) exactly on requests answered with a
local file. -/
theorem C9_frame (env : ReqEnv) (st : String → Option String)
    (mood0 : String) (sp : Option String) :
    (get_song_for_mood env st mood0 sp).mood_to_files = env.mood_to_files ∧
    (∀ m, m ≠ mood0.toLower →
       (get_song_for_mood env st mood0 sp).last_served m = st m) ∧
    (∀ m p f, (get_song_for_mood env st mood0 sp).response
        = SongResponse.localFile m p f →
       (get_song_for_mood env st mood0 sp).last_served mood0.toLower = some f) ∧
    ((∀ m p f, (get_song_for_mood env st mood0 sp).response
        ≠ SongResponse.localFile m p f) →
       ∀ m, (get_song_for_mood env st mood0 sp).last_served m = st m) := by
  refine ⟨get_song_catalog env st mood0 sp, ?_, ?_, (get_song_last_served env st mood0 sp).1⟩
  · intro m hm
    by_cases hl : ∃ m' p f, (get_song_for_mood env st mood0 sp).response
        = SongResponse.localFile m' p f
    · obtain ⟨m', p, f, hresp⟩ := hl
      rw [(get_song_last_served env st mood0 sp).2 m' p f hresp m]
      rw [if_neg hm]
    · push_neg at hl
      exact (get_song_last_served env st mood0 sp).1 hl m
  · intro m p f hresp
    rw [(get_song_last_served env st mood0 sp).2 m p f hresp mood0.toLower]
    rw [if_pos rfl]

def envC9 : ReqEnv :=
  { mood_to_files := [("happy", ["happy/a.mp3", "happy/b.mp3"])], USE_SPOTIFY := false,
    tokenNet := NetOutcome.exn "unused", searchNet := fun _ => NetOutcome.exn "unused",
    pickTrack := 0, pickLocal := 0 }

/-- Witness for C9 at a concrete request: the catalog is unchanged and the
`sad` entry of the last-served dict is untouched by a `happy` request. -/
theorem C9_witness :
    (get_song_for_mood envC9 st0 "happy" none).mood_to_files = envC9.mood_to_files ∧
    (get_song_for_mood envC9 st0 "happy" none).last_served "sad" = st0 "sad" :=
  ⟨(C9_frame envC9 st0 "happy" none).1,
   (C9_frame envC9 st0 "happy" none).2.1 "sad"
     (by rw [toLower_lit_happy]; decide)⟩

theorem resolve_files_of_empty (cat : List (String × List String)) (mood : String)
    (h : dictGet cat mood [] = []) :
    resolve_files cat mood
      = (match fallback_order.find? (fun fb => !(dictGet cat fb []).isEmpty) with
         | some fb => dictGet cat fb []
         | none => []) := by
  unfold resolve_files
  rw [h]
  simp

/-- When the resolved candidate list is empty, the request either returns an
external track that carries a truthy preview, or the 404 body. -/
theorem get_song_empty_shape (env : ReqEnv) (st : String → Option String)
    (mood0 : String) (sp : Option String)
    (hres : resolve_files env.mood_to_files mood0.toLower = []) :
    (∃ m t, (get_song_for_mood env st mood0 sp).response
        = SongResponse.spotifyTrack m t ∧ optTruthy t.preview_url = true) ∨
    (get_song_for_mood env st mood0 sp).response
      = SongResponse.notFound (not_found_message env.USE_SPOTIFY) := by
  simp only [get_song_for_mood]
  rcases hsf : spotify_first env mood0.toLower
      ((sp.getD "false").toLower == "true") with ⟨o, tc, sc⟩
  rcases o with _ | t
  · dsimp only
    rw [hres]
    rw [if_pos (by simp)]
    by_cases hlr : env.USE_SPOTIFY && !((sp.getD "false").toLower == "true")
    · rw [if_pos hlr]
      by_cases ht : optTruthy (get_spotify_token env.USE_SPOTIFY env.tokenNet)
      · rw [if_pos ht]
        rcases hs : search_spotify_track mood0.toLower
            (get_spotify_token env.USE_SPOTIFY env.tokenNet) env.searchNet
            env.pickTrack with _ | t2
        · exact Or.inr rfl
        · dsimp only
          by_cases hp : optTruthy t2.preview_url
          · rw [if_pos hp]
            exact Or.inl ⟨mood0.toLower, t2, rfl, hp⟩
          · rw [if_neg hp]
            exact Or.inr rfl
      · rw [if_neg ht]
        exact Or.inr rfl
    · rw [if_neg hlr]
      exact Or.inr rfl
  · dsimp only
    exact Or.inl ⟨mood0.toLower, t, rfl,
      spotify_first_track_preview env mood0.toLower _ t tc sc hsf⟩

/-- When the resolved candidate list is empty, the provider is configured and
the request did not ask for spotify, the last-resort branch attempts exactly
one token acquisition, and one track search iff the token came back truthy. -/
theorem get_song_empty_counts (env : ReqEnv) (st : String → Option String)
    (mood0 : String) (sp : Option String)
    (hres : resolve_files env.mood_to_files mood0.toLower = [])
    (hcfg : env.USE_SPOTIFY = true)
    (hflag : ((sp.getD "false").toLower == "true") = false) :
    (get_song_for_mood env st mood0 sp).tokenCalls = 1 ∧
    (optTruthy (get_spotify_token env.USE_SPOTIFY env.tokenNet) = true →
       (get_song_for_mood env st mood0 sp).searchCalls = 1) ∧
    (optTruthy (get_spotify_token env.USE_SPOTIFY env.tokenNet) = false →
       (get_song_for_mood env st mood0 sp).searchCalls = 0) := by
  simp only [get_song_for_mood, hflag, spotify_first_param_false]
  rw [hres]
  rw [if_pos (by simp)]
  rw [if_pos (by simp [hcfg, hflag])]
  by_cases ht : optTruthy (get_spotify_token env.USE_SPOTIFY env.tokenNet)
  · rw [if_pos ht]
    rcases hs : search_spotify_track mood0.toLower
        (get_spotify_token env.USE_SPOTIFY env.tokenNet) env.searchNet
        env.pickTrack with _ | t2
    · exact ⟨rfl, fun _ => rfl, fun hf => by rw [ht] at hf; cases hf⟩
    · dsimp only
      by_cases hp : optTruthy t2.preview_url
      · rw [if_pos hp]
        exact ⟨rfl, fun _ => rfl, fun hf => by rw [ht] at hf; cases hf⟩
      · rw [if_neg hp]
        exact ⟨rfl, fun _ => rfl, fun hf => by rw [ht] at hf; cases hf⟩
  · rw [if_neg ht]
    refine ⟨rfl, fun htr => ?_, fun _ => rfl⟩
    rw [htr] at ht
    exact absurd rfl ht

theorem resolve_files_all_empty (cat : List (String × List String)) (mood : String)
    (hmood : dictGet cat mood [] = [])
    (hall : ∀ fb ∈ fallback_order, dictGet cat fb [] = []) :
    resolve_files cat mood = [] := by
  rw [resolve_files_of_empty cat mood hmood]
  have hnone : fallback_order.find? (fun fb => !(dictGet cat fb []).isEmpty) = none := by
    rw [List.find?_eq_none]
    intro x hx
    simp [hall x hx]
  rw [hnone]

/-- C1: when the requested (lowercased) mood has no local files, any local
answer is drawn from the list of the first mood in the fallback order
(neutral, happy, sad, angry) whose list is non-empty; and when all four
fallback lists are also empty and no external track is returned, the
response is the 404 body with `ok = false` and a `message` field. -/
theorem C1_fallback_order (env : ReqEnv) (st : String → Option String)
    (mood0 : String) (sp : Option String)
    (hempty : dictGet env.mood_to_files mood0.toLower [] = []) :
    (∀ m p f, (get_song_for_mood env st mood0 sp).response
        = SongResponse.localFile m p f →
       ∃ i : Fin fallback_order.length,
         dictGet env.mood_to_files (fallback_order.get i) [] ≠ [] ∧
         f ∈ dictGet env.mood_to_files (fallback_order.get i) [] ∧
         ∀ j : Fin fallback_order.length, j.1 < i.1 →
           dictGet env.mood_to_files (fallback_order.get j) [] = []) ∧
    ((∀ fb ∈ fallback_order, dictGet env.mood_to_files fb [] = []) →
     (∀ m t, (get_song_for_mood env st mood0 sp).response
        ≠ SongResponse.spotifyTrack m t) →
     (get_song_for_mood env st mood0 sp).response
         = SongResponse.notFound (not_found_message env.USE_SPOTIFY) ∧
     ((get_song_for_mood env st mood0 sp).response).httpStatus = 404 ∧
     ((get_song_for_mood env st mood0 sp).response).okField = false ∧
     ((get_song_for_mood env st mood0 sp).response).messageField
         = some (not_found_message env.USE_SPOTIFY)) := by
  constructor
  · intro m p f hresp
    obtain ⟨-, hne, hf, -⟩ := get_song_local_inv env st mood0 sp m p f hresp
    rw [resolve_files_of_empty _ _ hempty] at hne hf
    rcases hfind : fallback_order.find?
        (fun fb => !(dictGet env.mood_to_files fb []).isEmpty) with _ | fb
    · rw [hfind] at hne
      simp at hne
    · rw [hfind] at hne hf
      dsimp only at hne hf
      obtain ⟨i, hget, hpred, hmin⟩ := find?_first _ _ _ hfind
      refine ⟨i, ?_, ?_, ?_⟩
      · rw [hget]
        simpa using hpred
      · rw [hget, hf]
        exact local_select_mem _ _ _ hne
      · intro j hj
        have := hmin j hj
        simpa using this
  · intro hall hns
    have hres := resolve_files_all_empty env.mood_to_files mood0.toLower hempty hall
    rcases get_song_empty_shape env st mood0 sp hres with ⟨m, t, hresp, -⟩ | hnf
    · exact absurd hresp (hns m t)
    · refine ⟨hnf, ?_, ?_, ?_⟩ <;> rw [hnf] <;> rfl

def envC1 : ReqEnv :=
  { mood_to_files := [], USE_SPOTIFY := false,
    tokenNet := NetOutcome.exn "unused", searchNet := fun _ => NetOutcome.exn "unused",
    pickTrack := 0, pickLocal := 0 }

/-- Witness for C1 on a fully empty catalog: the 404 body with `ok = false`
and a message. -/
theorem C1_witness :
    (get_song_for_mood envC1 st0 "happy" none).response
        = SongResponse.notFound (not_found_message envC1.USE_SPOTIFY) ∧
    ((get_song_for_mood envC1 st0 "happy" none).response).httpStatus = 404 ∧
    ((get_song_for_mood envC1 st0 "happy" none).response).okField = false := by
  have heval : (get_song_for_mood envC1 st0 "happy" none).response
      = SongResponse.notFound (not_found_message false) := by
    simp only [get_song_for_mood, toLower_lit_happy, Option.getD_none, toLower_lit_false]
    decide
  have h := (C1_fallback_order envC1 st0 "happy" none
      (by rw [toLower_lit_happy]; decide)).2
    (by intro fb _; rfl)
    (by intro m t hresp; rw [heval] at hresp; cases hresp)
  exact ⟨h.1, h.2.1, h.2.2.1⟩

/-- C5: with no local files anywhere (requested mood and all four fallback
moods empty), the provider configured, and spotify not requested, the
last-resort branch makes exactly one token acquisition, exactly one track
search when the token came back truthy (none otherwise), returns an external
track only if it carries a truthy preview reference, and otherwise declares
the 404. -/
theorem C5_last_resort (env : ReqEnv) (st : String → Option String)
    (mood0 : String) (sp : Option String)
    (hmood : dictGet env.mood_to_files mood0.toLower [] = [])
    (hall : ∀ fb ∈ fallback_order, dictGet env.mood_to_files fb [] = [])
    (hcfg : env.USE_SPOTIFY = true)
    (hflag : (sp.getD "false").toLower ≠ "true") :
    (get_song_for_mood env st mood0 sp).tokenCalls = 1 ∧
    (get_song_for_mood env st mood0 sp).searchCalls ≤ 1 ∧
    (optTruthy (get_spotify_token env.USE_SPOTIFY env.tokenNet) = true →
       (get_song_for_mood env st mood0 sp).searchCalls = 1) ∧
    (∀ m t, (get_song_for_mood env st mood0 sp).response
        = SongResponse.spotifyTrack m t → optTruthy t.preview_url = true) ∧
    ((∀ m t, (get_song_for_mood env st mood0 sp).response
        ≠ SongResponse.spotifyTrack m t) →
       (get_song_for_mood env st mood0 sp).response
         = SongResponse.notFound (not_found_message env.USE_SPOTIFY)) := by
  have hres := resolve_files_all_empty env.mood_to_files mood0.toLower hmood hall
  have hbeq : ((sp.getD "false").toLower == "true") = false := by
    simpa using hflag
  obtain ⟨htc, hsc1, hsc0⟩ := get_song_empty_counts env st mood0 sp hres hcfg hbeq
  refine ⟨htc, ?_, hsc1, ?_, ?_⟩
  · rcases ht : optTruthy (get_spotify_token env.USE_SPOTIFY env.tokenNet) with _ | _
    · rw [hsc0 ht]; omega
    · rw [hsc1 ht]
  · intro m t hresp
    rcases get_song_empty_shape env st mood0 sp hres with ⟨m', t', hresp', hp⟩ | hnf
    · rw [hresp] at hresp'
      obtain ⟨-, rfl⟩ := SongResponse.spotifyTrack.inj hresp'.symm
      exact hp
    · rw [hnf] at hresp
      cases hresp
  · intro hns
    rcases get_song_empty_shape env st mood0 sp hres with ⟨m', t', hresp', -⟩ | hnf
    · exact absurd hresp' (hns m' t')
    · exact hnf

def envC5 : ReqEnv :=
  { mood_to_files := [], USE_SPOTIFY := true,
    tokenNet := NetOutcome.exn "network down",
    searchNet := fun _ => NetOutcome.exn "unused",
    pickTrack := 0, pickLocal := 0 }

/-- Witness for C5: empty catalog, configured provider, spotify not
requested — exactly one token attempt is made. -/
theorem C5_witness :
    (get_song_for_mood envC5 st0 "happy" none).tokenCalls = 1 :=
  (C5_last_resort envC5 st0 "happy" none
      (by rw [toLower_lit_happy]; decide)
      (by intro fb _; rfl)
      rfl
      (by rw [Option.getD, toLower_lit_false]; decide)).1

/-- C2: when the resolved candidate list for a mood holds at least two
distinct files, two consecutive requests for that mood that are both
answered locally never serve the same file: the second selection excludes
the file just recorded as last served. -/
theorem C2_no_immediate_repeat (env1 env2 : ReqEnv) (st : String → Option String)
    (mood0 : String) (sp1 sp2 : Option String) (m1 p1 f1 m2 p2 f2 : String)
    (hcat : env2.mood_to_files = env1.mood_to_files)
    (hdist : ∃ a ∈ resolve_files env1.mood_to_files mood0.toLower,
             ∃ b ∈ resolve_files env1.mood_to_files mood0.toLower, a ≠ b)
    (h1 : (get_song_for_mood env1 st mood0 sp1).response
        = SongResponse.localFile m1 p1 f1)
    (h2 : (get_song_for_mood env2 (get_song_for_mood env1 st mood0 sp1).last_served
            mood0 sp2).response = SongResponse.localFile m2 p2 f2) :
    f2 ≠ f1 := by
  have hst1 : (get_song_for_mood env1 st mood0 sp1).last_served mood0.toLower
      = some f1 := by
    rw [(get_song_last_served env1 st mood0 sp1).2 m1 p1 f1 h1 mood0.toLower]
    rw [if_pos rfl]
  obtain ⟨-, hne2, hf2, -⟩ := get_song_local_inv env2 _ mood0 sp2 m2 p2 f2 h2
  rw [hcat, hst1] at hf2
  rw [hf2]
  exact local_select_ne_prev _ f1 _ hdist

/-- Witness for C2: two consecutive `happy` requests against a two-file
catalog serve `a.mp3` then `b.mp3`. -/
theorem C2_witness :
    (get_song_for_mood envC9 st0 "happy" none).response
        = SongResponse.localFile "happy" "/static/static_music/happy/a.mp3"
            "happy/a.mp3" ∧
    (get_song_for_mood envC9 (get_song_for_mood envC9 st0 "happy" none).last_served
        "happy" none).response
      = SongResponse.localFile "happy" "/static/static_music/happy/b.mp3"
          "happy/b.mp3" ∧
    ("happy/b.mp3" : String) ≠ "happy/a.mp3" := by
  have heval1 : (get_song_for_mood envC9 st0 "happy" none).response
      = SongResponse.localFile "happy" "/static/static_music/happy/a.mp3"
          "happy/a.mp3" := by
    simp only [get_song_for_mood, toLower_lit_happy, Option.getD_none, toLower_lit_false]
    decide
  have hst1 : (get_song_for_mood envC9 st0 "happy" none).last_served "happy"
      = some "happy/a.mp3" := by
    simp only [get_song_for_mood, toLower_lit_happy, Option.getD_none, toLower_lit_false]
    decide
  have heval2 : (get_song_for_mood envC9
        (get_song_for_mood envC9 st0 "happy" none).last_served "happy" none).response
      = SongResponse.localFile "happy" "/static/static_music/happy/b.mp3"
          "happy/b.mp3" := by
    have hfun : (get_song_for_mood envC9 st0 "happy" none).last_served
        = fun m => if m == "happy" then some "happy/a.mp3" else none := by
      simp only [get_song_for_mood, toLower_lit_happy, Option.getD_none, toLower_lit_false]
      rfl
    rw [hfun]
    simp only [get_song_for_mood, toLower_lit_happy, Option.getD_none, toLower_lit_false]
    decide
  refine ⟨heval1, heval2, ?_⟩
  exact C2_no_immediate_repeat envC9 envC9 st0 "happy" none none
    "happy" "/static/static_music/happy/a.mp3" "happy/a.mp3"
    "happy" "/static/static_music/happy/b.mp3" "happy/b.mp3"
    rfl
    (by rw [toLower_lit_happy]; decide)
    heval1 heval2
